import Mathlib

/-!
Shallow embedding of Facturio's jurisdiction-resolution engine
(src/geocoding.py) and of the webhook handler's idempotent event gate
(src/app.py).  Python strings are modelled as lists of Unicode code
points (`PyStr`); the geocoding provider is an oracle parameter.
-/

/-- A Python string: a finite sequence of Unicode code points. -/
abbrev PyStr := List Nat

/-- Interpret a Lean string literal as a `PyStr`. -/
def pyOfString (s : String) : PyStr := s.data.map Char.toNat

/-- Python `str.lower` on a single code point, covering ASCII letters and
the Romanian diacritic letters this application manipulates. -/
def pyLower (c : Nat) : Nat :=
  if 65 ≤ c ∧ c ≤ 90 then c + 32
  else if c = 0x102 then 0x103      -- Ă → ă
  else if c = 0xC2 then 0xE2        -- Â → â
  else if c = 0xCE then 0xEE        -- Î → î
  else if c = 0x218 then 0x219      -- Ș → ș
  else if c = 0x21A then 0x21B      -- Ț → ț
  else if c = 0x15E then 0x15F      -- Ş → ş
  else if c = 0x162 then 0x163      -- Ţ → ţ
  else c

/-- Python `str.upper` (and title-casing of a single character, which
coincides with upper-casing for these alphabets). -/
def pyUpper (c : Nat) : Nat :=
  if 97 ≤ c ∧ c ≤ 122 then c - 32
  else if c = 0x103 then 0x102
  else if c = 0xE2 then 0xC2
  else if c = 0xEE then 0xCE
  else if c = 0x219 then 0x218
  else if c = 0x21B then 0x21A
  else if c = 0x15F then 0x15E
  else if c = 0x163 then 0x162
  else c

/-- Python `str.lower` on a whole string. -/
def pyLowerStr (s : PyStr) : PyStr := s.map pyLower

/-- ASCII whitespace, the relevant fragment of Python's `str.isspace`
and of the regex class `\s`. -/
def isPySpace (c : Nat) : Bool :=
  decide (c = 32 ∨ c = 9 ∨ c = 10 ∨ c = 11 ∨ c = 12 ∨ c = 13)

/-- ASCII decimal digits, the relevant fragment of the regex class `\d`. -/
def isPyDigit (c : Nat) : Bool := decide (48 ≤ c ∧ c ≤ 57)

/-- Modelled: `unicodedata.normalize('NFKD', ·)` followed by
`.encode('ASCII', 'ignore')` on one code point — decompose and keep only
ASCII.  ASCII code points are preserved exactly; the Romanian diacritic
letters decompose to their ASCII base letter; all other non-ASCII code
points are dropped. -/
def nfkdAscii (c : Nat) : List Nat :=
  if c < 128 then [c]
  else if c = 0x102 ∨ c = 0xC2 then [65]        -- Ă Â → A
  else if c = 0x103 ∨ c = 0xE2 then [97]        -- ă â → a
  else if c = 0xCE then [73]                    -- Î → I
  else if c = 0xEE then [105]                   -- î → i
  else if c = 0x218 ∨ c = 0x15E then [83]       -- Ș Ş → S
  else if c = 0x219 ∨ c = 0x15F then [115]      -- ș ş → s
  else if c = 0x21A ∨ c = 0x162 then [84]       -- Ț Ţ → T
  else if c = 0x21B ∨ c = 0x163 then [116]      -- ț ţ → t
  else []

/-- Strip code points satisfying `p` from both ends of a string
(Python `str.strip`, parameterized by the stripped set). -/
def pyStripWith (p : Nat → Bool) (s : PyStr) : PyStr :=
  ((s.dropWhile p).reverse.dropWhile p).reverse

/-- Python `str.strip()`: strip whitespace from both ends. -/
def pyStrip (s : PyStr) : PyStr := pyStripWith isPySpace s

/-- The characters of Python's `strip(', ')` argument. -/
def isCommaSpace (c : Nat) : Bool := decide (c = 44 ∨ c = 32)

/-- Python `str.capitalize()`: first character title-cased, the rest
lower-cased. -/
def pyCapitalize : PyStr → PyStr
  | [] => []
  | c :: rest => pyUpper c :: rest.map pyLower

/-- `normalize_county` from src/geocoding.py: NFKD-decompose and drop
non-ASCII, strip surrounding whitespace, capitalize. -/
def normalize_county (county : PyStr) : PyStr :=
  pyCapitalize (pyStrip (county.flatMap nfkdAscii))

/-- `VALID_COUNTIES` from src/geocoding.py. -/
def VALID_COUNTIES : List PyStr :=
  ["Alba", "Arad", "Arges", "Bacau", "Bihor", "Bistrita-Nasaud", "Botosani",
   "Brasov", "Braila", "Buzau", "Caras-Severin", "Cluj", "Constanta",
   "Covasna", "Dambovita", "Dolj", "Galati", "Giurgiu", "Gorj", "Harghita",
   "Hunedoara", "Ialomita", "Iasi", "Ilfov", "Maramures", "Mehedinti",
   "Mures", "Neamt", "Olt", "Prahova", "Satu Mare", "Salaj", "Sibiu",
   "Suceava", "Teleorman", "Timis", "Tulcea", "Vaslui", "Valcea", "Vrancea",
   "Bucuresti"].map pyOfString

/-- `', '.join([a, b]).strip(', ')` as used for the two lookup queries. -/
def joinStrip2 (a b : PyStr) : PyStr :=
  pyStripWith isCommaSpace (a ++ [44, 32] ++ b)

/-- `', '.join(part for part in parts if part)`. -/
def joinNonEmpty (parts : List PyStr) : PyStr :=
  List.intercalate [44, 32] (parts.filter (fun part => !part.isEmpty))

/-- The client address dictionary (Stripe address): absent keys are `none`. -/
structure ClientAddress where
  line1 : Option PyStr := none
  line2 : Option PyStr := none
  city : Option PyStr := none
  postal_code : Option PyStr := none
  country : Option PyStr := none
  state : Option PyStr := none
deriving DecidableEq

/-- The `address` dictionary of a geocoder response (`location.raw['address']`). -/
structure AddressData where
  county : Option PyStr := none
  state : Option PyStr := none
  region : Option PyStr := none
  city_district : Option PyStr := none
  suburb : Option PyStr := none
deriving DecidableEq

/-- Outcome of one `geolocator.geocode` call: a location with an address
breakdown, no result (`None`), a `GeocoderTimedOut` exception, or any
other raised exception. -/
inductive GeoOutcome where
  | found (address : AddressData)
  | notFound
  | timedOut
  | failed
deriving DecidableEq

/-- Python `a or b` over optional strings, where `None` and `''` are falsy. -/
def pyOrOpt (a b : Option PyStr) : Option PyStr :=
  match a with
  | some s => if s.isEmpty then b else some s
  | none => b

/-- `address_data.get('county') or address_data.get('state') or
address_data.get('region')` (falsy chain, yielding `none` when every
field is absent or empty). -/
def countyField (a : AddressData) : Option PyStr :=
  pyOrOpt a.county (pyOrOpt a.state (pyOrOpt a.region none))

/-- `validate_county` from src/geocoding.py.  `geo` is the geocoding
provider oracle; the second component of the result is the list of
queries issued to it (both `try` blocks catch every exception, so the
function itself never raises). -/
def validate_county (geo : PyStr → GeoOutcome) (raw_county : PyStr)
    (addr : ClientAddress) : PyStr × List PyStr :=
  if raw_county ≠ [] ∧
      pyLowerStr (normalize_county raw_county) ∈ VALID_COUNTIES.map pyLowerStr then
    (normalize_county raw_county, [])
  else
    let postal_code := addr.postal_code.getD []
    let country := addr.country.getD []
    let q1 := joinStrip2 postal_code country
    let step2 : PyStr × List PyStr :=
      let city := addr.city.getD []
      let q2 := joinStrip2 city country
      match geo q2 with
      | .found a =>
        (normalize_county ((countyField a).getD (pyOfString "Unknown County")),
         [q1, q2])
      | _ =>
        (if raw_county ≠ [] then normalize_county raw_county
         else pyOfString "Unknown County", [q1, q2])
    match geo q1 with
    | .found a =>
      match countyField a with
      | some g => (normalize_county g, [q1])
      | none => step2
    | _ => step2

/-- The regex `Sector\s*\d+` (with `re.IGNORECASE`) matched at the start
of `s`; returns the matched text in its original casing. -/
def matchSectorHere (s : PyStr) : Option PyStr :=
  if pyLowerStr (s.take 6) = pyOfString "sector" then
    let rest := s.drop 6
    let ws := rest.takeWhile isPySpace
    let ds := (rest.drop ws.length).takeWhile isPyDigit
    if ds.isEmpty then none else some (s.take 6 ++ ws ++ ds)
  else none

/-- `re.search` for the sector pattern: the leftmost match wins. -/
def searchSector : PyStr → Option PyStr
  | [] => none
  | c :: rest =>
    match matchSectorHere (c :: rest) with
    | some m => some m
    | none => searchSector rest

/-- The `for field in [line1, line2]` sector scan of
`resolve_county_and_city` (empty fields are skipped; first match wins). -/
def firstSector (line1 line2 : PyStr) : Option PyStr :=
  match (if line1.isEmpty then none else searchSector line1) with
  | some m => some m
  | none => if line2.isEmpty then none else searchSector line2

/-- The lowercase Bucharest spellings tested by `resolve_county_and_city`. -/
def bucharestNames : List PyStr :=
  [pyOfString "bucuresti", pyOfString "bucurești"]

/-- An exception escaping `resolve_county_and_city`: the Bucharest
geocoding fallback only catches `GeocoderTimedOut`, so any other raised
exception propagates. -/
inductive UncaughtExc where
  | geocoderError
deriving DecidableEq

/-- `resolve_county_and_city` from src/geocoding.py.  Returns the
`(county, city)` pair and the list of geocoding queries issued, or an
uncaught exception. -/
def resolve_county_and_city (geo : PyStr → GeoOutcome) (addr : ClientAddress) :
    Except UncaughtExc ((PyStr × PyStr) × List PyStr) :=
  let city := addr.city.getD (pyOfString "Unknown City")
  let country := addr.country.getD (pyOfString "Unknown Country")
  let line1 := addr.line1.getD []
  let line2 := addr.line2.getD []
  let postal_code := addr.postal_code.getD []
  if pyLowerStr city ∈ bucharestNames then
    match firstSector line1 line2 with
    | some sector => .ok ((pyOfString "Bucuresti", sector), [])
    | none =>
      let q := joinNonEmpty [line1, city, postal_code, country]
      match geo q with
      | .found a =>
        let sector_geo := pyOrOpt a.city_district (pyOrOpt a.suburb none)
        .ok ((pyOfString "Bucuresti", sector_geo.getD (pyOfString "Unknown Sector")),
             [q])
      | .notFound => .ok ((pyOfString "Bucuresti", pyOfString "Unknown Sector"), [q])
      | .timedOut => .ok ((pyOfString "Bucuresti", pyOfString "Unknown Sector"), [q])
      | .failed => .error .geocoderError
  else
    let vc := validate_county geo (addr.state.getD []) addr
    .ok ((vc.1, city), vc.2)

/-! ## Idempotent event gate and webhook handler (src/app.py) -/

/-- The idempotency store: the set of recorded event identifiers. -/
abbrev Store := List PyStr

/-- Modelled from the spec: `is_event_processed` of the `idempotency`
module (not among the sources) — `exists(key)`, a presence check. -/
def is_event_processed (store : Store) (eid : PyStr) : Bool :=
  decide (eid ∈ store)

/-- Modelled from the spec: `mark_event_processed` of the `idempotency`
module (not among the sources) — `set(key)`, record the identifier. -/
def mark_event_processed (store : Store) (eid : PyStr) : Store :=
  eid :: store

/-- Modelled from the spec: `remove_event` of the `idempotency` module
(not among the sources) — `delete(key)`, delete the record. -/
def remove_event (store : Store) (eid : PyStr) : Store :=
  store.filter (fun x => decide (x ≠ eid))

/-- The spec's `markIfUnseen` gate contract, exactly as the handler
composes it (src/app.py lines 41–45): presence check, then mark.
`true` = proceed, `false` = duplicate. -/
def markIfUnseen (store : Store) (eid : PyStr) : Bool × Store :=
  if is_event_processed store eid then (false, store)
  else (true, mark_event_processed store eid)

/-- A verified Stripe event, reduced to the fields the handler consults. -/
structure StripeEvent where
  id : PyStr
  type : PyStr
deriving DecidableEq

/-- The HTTP response of the webhook endpoint: status code plus the
`success` / `message` / `error` fields of the JSON body. -/
structure WebhookResponse where
  status : Nat
  success : Bool
  message : Option PyStr := none
  error : Option PyStr := none
deriving DecidableEq

/-- `stripe_webhook` from src/app.py.  `verified` is the outcome of
`stripe.Webhook.construct_event` (`none` = signature verification
failed); `processing` is the outcome of the try-block body for a
`checkout.session.completed` event (invoice build, SmartBill call,
email — email failures are caught inside that body; the
unhandled-event-type branch only logs and cannot raise).  Returns the
response and the updated idempotency store. -/
def stripe_webhook (verified : Option StripeEvent)
    (processing : StripeEvent → Except Unit Unit) (store : Store) :
    WebhookResponse × Store :=
  match verified with
  | none =>
    ({status := 400, success := false,
      error := some (pyOfString "Invalid signature")}, store)
  | some event =>
    if is_event_processed store event.id then
      ({status := 200, success := true,
        message := some (pyOfString "Duplicate event")}, store)
    else
      let store1 := mark_event_processed store event.id
      if event.type = pyOfString "checkout.session.completed" then
        match processing event with
        | .ok _ => ({status := 200, success := true}, store1)
        | .error _ =>
          ({status := 500, success := false,
            error := some (pyOfString "Internal server error")},
           remove_event store1 event.id)
      else
        ({status := 200, success := true}, store1)

/-! ## Claims about the idempotent event gate -/

/-- C3: calling the gate (presence check then mark) twice in sequence
yields proceed on the first call and duplicate on the second; after the
rollback (`remove_event`) performed when processing raises, the record
is gone, so a subsequent call for the same identifier proceeds again. -/
theorem C3_gate_mark_rollback (store : Store) (eid : PyStr)
    (h : is_event_processed store eid = false) :
    (markIfUnseen store eid).1 = true ∧
    (markIfUnseen (markIfUnseen store eid).2 eid).1 = false ∧
    (markIfUnseen (remove_event (markIfUnseen store eid).2 eid) eid).1 = true := by
  simp only [is_event_processed, decide_eq_false_iff_not] at h
  simp [markIfUnseen, is_event_processed, mark_event_processed, remove_event,
    List.mem_filter, h]

/-- Witness for C3 at the concrete identifier `"evt_1"` and an empty store. -/
theorem C3_gate_mark_rollback_witness :
    is_event_processed [] (pyOfString "evt_1") = false ∧
    ((markIfUnseen [] (pyOfString "evt_1")).1 = true ∧
     (markIfUnseen (markIfUnseen [] (pyOfString "evt_1")).2 (pyOfString "evt_1")).1 = false ∧
     (markIfUnseen (remove_event (markIfUnseen [] (pyOfString "evt_1")).2
         (pyOfString "evt_1")) (pyOfString "evt_1")).1 = true) :=
  ⟨by decide, C3_gate_mark_rollback [] (pyOfString "evt_1") (by decide)⟩

/-- C10: for a verified event of any type other than
`checkout.session.completed`, the handler marks the identifier before
the type dispatch, does no invoice work (the result is the same for
every processing outcome, which the universally quantified `p` and `p2`
express), answers success, and never removes the record — so a
redelivery of the same identifier is answered as a duplicate. -/
theorem C10_unhandled_type_marked (e : StripeEvent)
    (p p2 : StripeEvent → Except Unit Unit) (store : Store)
    (htype : e.type ≠ pyOfString "checkout.session.completed")
    (hnew : is_event_processed store e.id = false) :
    stripe_webhook (some e) p store =
      ({status := 200, success := true}, mark_event_processed store e.id) ∧
    is_event_processed (mark_event_processed store e.id) e.id = true ∧
    stripe_webhook (some e) p2 (mark_event_processed store e.id) =
      ({status := 200, success := true,
        message := some (pyOfString "Duplicate event")},
       mark_event_processed store e.id) := by
  simp only [is_event_processed, decide_eq_false_iff_not] at hnew
  simp [stripe_webhook, hnew, htype, is_event_processed, mark_event_processed]

/-- Witness for C10 at a concrete `invoice.paid` event. -/
theorem C10_unhandled_type_marked_witness :
    (⟨pyOfString "evt_2", pyOfString "invoice.paid"⟩ : StripeEvent).type ≠
      pyOfString "checkout.session.completed" ∧
    is_event_processed [] (pyOfString "evt_2") = false ∧
    (stripe_webhook (some ⟨pyOfString "evt_2", pyOfString "invoice.paid"⟩)
        (fun _ => Except.ok ()) [] =
      ({status := 200, success := true},
       mark_event_processed [] (pyOfString "evt_2")) ∧
    is_event_processed (mark_event_processed [] (pyOfString "evt_2"))
        (pyOfString "evt_2") = true ∧
    stripe_webhook (some ⟨pyOfString "evt_2", pyOfString "invoice.paid"⟩)
        (fun _ => Except.error ())
        (mark_event_processed [] (pyOfString "evt_2")) =
      ({status := 200, success := true,
        message := some (pyOfString "Duplicate event")},
       mark_event_processed [] (pyOfString "evt_2"))) :=
  ⟨by decide, by decide,
   C10_unhandled_type_marked ⟨pyOfString "evt_2", pyOfString "invoice.paid"⟩
     (fun _ => Except.ok ()) (fun _ => Except.error ()) [] (by decide) (by decide)⟩

/-- C8 fails as stated: an internal processing error is answered with
HTTP 500, not 200 — at this concrete delivery the status is neither 400
nor 200. -/
theorem C8_counterexample :
    (stripe_webhook
        (some ⟨pyOfString "evt_3", pyOfString "checkout.session.completed"⟩)
        (fun _ => Except.error ()) []).1 =
      {status := 500, success := false,
       error := some (pyOfString "Internal server error")} ∧
    (500 : Nat) ≠ 400 ∧ (500 : Nat) ≠ 200 := by decide

/-- C8 as amended: every response is 400 with a failure body (signature
failure), 200 with a success body (success or duplicate), or 500 with a
failure indicator payload (internal processing error). -/
theorem C8_response_statuses (verified : Option StripeEvent)
    (processing : StripeEvent → Except Unit Unit) (store : Store) :
    ((stripe_webhook verified processing store).1.status = 400 ∧
      (stripe_webhook verified processing store).1.success = false) ∨
    ((stripe_webhook verified processing store).1.status = 200 ∧
      (stripe_webhook verified processing store).1.success = true) ∨
    ((stripe_webhook verified processing store).1.status = 500 ∧
      (stripe_webhook verified processing store).1.success = false ∧
      (stripe_webhook verified processing store).1.error =
        some (pyOfString "Internal server error")) := by
  rcases verified with _ | e
  · left; exact ⟨rfl, rfl⟩
  · by_cases hdup : is_event_processed store e.id
    · right; left
      simp [stripe_webhook, hdup]
    · by_cases htype : e.type = pyOfString "checkout.session.completed"
      · rcases hp : processing e with _ | _
        · right; right; simp [stripe_webhook, hdup, htype, hp]
        · right; left; simp [stripe_webhook, hdup, htype, hp]
      · right; left; simp [stripe_webhook, hdup, htype]

/-! ## Claims about county validation -/

/-- C1 fails as stated: for input "satu mare", whose normalization
matches the valid county "Satu Mare" case-insensitively, the function
returns the normalized form "Satu mare" with zero geocoding calls — but
"Satu mare" is not the canonical form "Satu Mare" (nor a member of the
valid list at all). -/
theorem C1_counterexample :
    validate_county (fun _ => GeoOutcome.notFound) (pyOfString "satu mare") {} =
      (pyOfString "Satu mare", []) ∧
    pyOfString "Satu Mare" ∈ VALID_COUNTIES ∧
    pyLowerStr (pyOfString "Satu mare") = pyLowerStr (pyOfString "Satu Mare") ∧
    pyOfString "Satu mare" ≠ pyOfString "Satu Mare" ∧
    pyOfString "Satu mare" ∉ VALID_COUNTIES := by decide

/-- C1 as amended: whenever the non-empty raw county normalizes to a
case-insensitive match of a valid county, `validate_county` immediately
returns that normalized form (equal to the canonical entry only up to
letter case) and issues zero geocoding queries, for every provider
behaviour and every address. -/
theorem C1_offline_normalized (geo : PyStr → GeoOutcome) (raw : PyStr)
    (addr : ClientAddress) (hne : raw ≠ [])
    (hval : pyLowerStr (normalize_county raw) ∈ VALID_COUNTIES.map pyLowerStr) :
    validate_county geo raw addr = (normalize_county raw, []) := by
  unfold validate_county
  rw [if_pos ⟨hne, hval⟩]

/-- Witness for C1 as amended, at raw county "CLUJ". -/
theorem C1_offline_normalized_witness :
    pyOfString "CLUJ" ≠ [] ∧
    pyLowerStr (normalize_county (pyOfString "CLUJ")) ∈ VALID_COUNTIES.map pyLowerStr ∧
    validate_county (fun _ => GeoOutcome.timedOut) (pyOfString "CLUJ") {} =
      (normalize_county (pyOfString "CLUJ"), []) :=
  ⟨by decide, by decide,
   C1_offline_normalized (fun _ => GeoOutcome.timedOut) (pyOfString "CLUJ") {}
     (by decide) (by decide)⟩

/-- C7: when the postal-code lookup yields nothing and the city/country
lookup responds with an address breakdown that has no county, state or
region field, the code's `'Unknown County'` default is passed through
`normalize_county`, which lower-cases everything after the first letter:
the returned value is "Unknown county", not the literal
"Unknown County" the claim (and the function's other fallback branch at
line 100) uses. -/
theorem C7_city_step_default_mangled :
    validate_county
        (fun q => if q = joinStrip2 (pyOfString "Nowhere") (pyOfString "RO")
                  then GeoOutcome.found {} else GeoOutcome.notFound)
        (pyOfString "Somewhere")
        {city := some (pyOfString "Nowhere"),
         postal_code := some (pyOfString "999"),
         country := some (pyOfString "RO")} =
      (pyOfString "Unknown county",
       [pyOfString "999, RO", pyOfString "Nowhere, RO"]) ∧
    pyOfString "Unknown county" ≠ pyOfString "Unknown County" := by decide

/-! ## Claims about county/city resolution -/

/-- C5: for a Bucharest address, a match of the sector pattern in the
scanned lines (line1 first — a line1 match always wins, as the first
conjunct states) becomes the city, and the geocoding fallback is never
invoked: the query list is empty, for every provider behaviour. -/
theorem C5_sector_text_priority (geo : PyStr → GeoOutcome)
    (addr : ClientAddress) (m : PyStr)
    (hbuch : pyLowerStr (addr.city.getD (pyOfString "Unknown City")) ∈ bucharestNames)
    (hm : firstSector (addr.line1.getD []) (addr.line2.getD []) = some m) :
    (∀ m1, searchSector (addr.line1.getD []) = some m1 →
        firstSector (addr.line1.getD []) (addr.line2.getD []) = some m1) ∧
    resolve_county_and_city geo addr = Except.ok ((pyOfString "Bucuresti", m), []) := by
  constructor
  · intro m1 h1
    have hne : (addr.line1.getD []).isEmpty = false := by
      cases hL : addr.line1.getD [] with
      | nil => rw [hL] at h1; simp [searchSector] at h1
      | cons a t => rfl
    simp [firstSector, hne, h1]
  · simp only [resolve_county_and_city]
    rw [if_pos hbuch, hm]


/-- Witness for C5: `line1 = "Str. X, Sector 3"` with a provider that
would answer a different sector ("Sector 5"); the text match wins. -/
theorem C5_sector_text_priority_witness :
    pyLowerStr (pyOfString "Bucuresti") ∈ bucharestNames ∧
    firstSector (pyOfString "Str. X, Sector 3") [] = some (pyOfString "Sector 3") ∧
    ((∀ m1, searchSector (pyOfString "Str. X, Sector 3") = some m1 →
        firstSector (pyOfString "Str. X, Sector 3") [] = some m1) ∧
      resolve_county_and_city
        (fun _ => GeoOutcome.found ⟨none, none, none, some (pyOfString "Sector 5"), none⟩)
        ⟨some (pyOfString "Str. X, Sector 3"), none, some (pyOfString "Bucuresti"),
         none, none, none⟩ =
        Except.ok ((pyOfString "Bucuresti", pyOfString "Sector 3"), [])) :=
  ⟨by decide, by decide,
   C5_sector_text_priority
     (fun _ => GeoOutcome.found ⟨none, none, none, some (pyOfString "Sector 5"), none⟩)
     ⟨some (pyOfString "Str. X, Sector 3"), none, some (pyOfString "Bucuresti"),
      none, none, none⟩
     (pyOfString "Sector 3") (by decide) (by decide)⟩

/-- C4 fails as stated: for this Bucharest address (city "BUCUREȘTI",
no sector in the address lines) with a valid non-empty state "Cluj", a
geocoding provider that raises a non-timeout exception makes
`resolve_county_and_city` propagate the exception instead of returning
county "Bucuresti" — the Bucharest fallback only catches
`GeocoderTimedOut`. -/
theorem C4_counterexample :
    pyLowerStr (pyOfString "BUCUREȘTI") ∈ bucharestNames ∧
    resolve_county_and_city (fun _ => GeoOutcome.failed)
      ⟨some (pyOfString "Calea Victoriei 1"), none, some (pyOfString "BUCUREȘTI"),
       none, none, some (pyOfString "Cluj")⟩ =
      Except.error UncaughtExc.geocoderError := ⟨by decide, by rfl⟩

/-- C4 as amended: for a Bucharest city, whenever
`resolve_county_and_city` does return a pair, its county is exactly
"Bucuresti", and the whole outcome (the propagated exception included)
is independent of the `state` field, which is never consulted. -/
theorem C4_bucharest_precedence (geo : PyStr → GeoOutcome)
    (addr : ClientAddress) (s' : Option PyStr)
    (hbuch : pyLowerStr (addr.city.getD (pyOfString "Unknown City")) ∈ bucharestNames) :
    (∀ county city log,
        resolve_county_and_city geo addr = Except.ok ((county, city), log) →
        county = pyOfString "Bucuresti") ∧
    resolve_county_and_city geo addr =
      resolve_county_and_city geo {addr with state := s'} := by
  have hbuch' :
      pyLowerStr (({addr with state := s'} : ClientAddress).city.getD
        (pyOfString "Unknown City")) ∈ bucharestNames := hbuch
  constructor
  · intro county city log h
    rw [resolve_county_and_city, if_pos hbuch] at h
    dsimp only at h
    split at h
    · cases h; rfl
    · split at h
      · cases h; rfl
      · cases h; rfl
      · cases h; rfl
      · cases h
  · rw [resolve_county_and_city, resolve_county_and_city,
      if_pos hbuch, if_pos hbuch']

/-- Witness for C4 as amended, at a concrete Bucharest address, with and
without a state value. -/
theorem C4_bucharest_precedence_witness :
    pyLowerStr (pyOfString "Bucuresti") ∈ bucharestNames ∧
    ((∀ county city log,
        resolve_county_and_city (fun _ => GeoOutcome.notFound)
          ⟨none, none, some (pyOfString "Bucuresti"), none, none, none⟩ =
          Except.ok ((county, city), log) →
        county = pyOfString "Bucuresti") ∧
     resolve_county_and_city (fun _ => GeoOutcome.notFound)
        ⟨none, none, some (pyOfString "Bucuresti"), none, none, none⟩ =
     resolve_county_and_city (fun _ => GeoOutcome.notFound)
        ⟨none, none, some (pyOfString "Bucuresti"), none, none,
         some (pyOfString "Cluj")⟩) :=
  ⟨by decide,
   C4_bucharest_precedence (fun _ => GeoOutcome.notFound)
     ⟨none, none, some (pyOfString "Bucuresti"), none, none, none⟩
     (some (pyOfString "Cluj")) (by decide)⟩

/-- C2 fails as stated: for this Bucharest address with no sector in the
address lines, a provider exception other than a timeout during the
sector fallback propagates out of `resolve_county_and_city` instead of
falling through to a sentinel result. -/
theorem C2_counterexample :
    resolve_county_and_city (fun _ => GeoOutcome.failed)
      ⟨some (pyOfString "Strada Apusului 22"), none,
       some (pyOfString "bucurești"), none, none, none⟩ =
      Except.error UncaughtExc.geocoderError := by rfl

/-- C2 as amended: `resolve_county_and_city` returns a `(county, city)`
pair for every input and provider behaviour — every timeout, empty
result or exception in `validate_county` and every timeout or empty
result in the Bucharest fallback is absorbed into sentinel values —
except in exactly one situation: a Bucharest city, no sector pattern in
the address lines, and a provider exception other than `GeocoderTimedOut`
on the sector query, which propagates. -/
theorem C2_total_except_bucharest_exception (geo : PyStr → GeoOutcome)
    (addr : ClientAddress) :
    resolve_county_and_city geo addr = Except.error UncaughtExc.geocoderError ↔
      (pyLowerStr (addr.city.getD (pyOfString "Unknown City")) ∈ bucharestNames ∧
       firstSector (addr.line1.getD []) (addr.line2.getD []) = none ∧
       geo (joinNonEmpty [addr.line1.getD [],
              addr.city.getD (pyOfString "Unknown City"),
              addr.postal_code.getD [],
              addr.country.getD (pyOfString "Unknown Country")]) =
         GeoOutcome.failed) := by
  rw [resolve_county_and_city]
  by_cases hbuch :
      pyLowerStr (addr.city.getD (pyOfString "Unknown City")) ∈ bucharestNames
  · rw [if_pos hbuch]
    dsimp only
    constructor
    · intro h
      refine ⟨hbuch, ?_⟩
      split at h
      · cases h
      · rename_i hfs
        refine ⟨hfs, ?_⟩
        split at h
        · cases h
        · cases h
        · cases h
        · assumption
    · rintro ⟨-, hfs, hgeo⟩
      rw [hfs, hgeo]
  · rw [if_neg hbuch]
    dsimp only
    constructor
    · intro h; cases h
    · rintro ⟨hb, -⟩; exact absurd hb hbuch

/-- C6 fails as stated: when every lookup fails, `validate_county` falls
back to the normalized raw input — here the Hungarian exonym
"Kolozsvar", which is neither a valid county nor the sentinel. -/
theorem C6_counterexample :
    resolve_county_and_city (fun _ => GeoOutcome.notFound)
      ⟨some (pyOfString "Str. Horea 88-90"), none,
       some (pyOfString "Cluj-Napoca"), some (pyOfString "400275"),
       some (pyOfString "RO"), some (pyOfString "Kolozsvar")⟩ =
      Except.ok ((pyOfString "Kolozsvar", pyOfString "Cluj-Napoca"),
        [pyOfString "400275, RO", pyOfString "Cluj-Napoca, RO"]) ∧
    pyOfString "Kolozsvar" ∉ VALID_COUNTIES ∧
    pyOfString "Kolozsvar" ≠ pyOfString "Unknown County" :=
  ⟨by rfl, by decide, by decide⟩

/-- Every value `validate_county` can return: the normalized raw input,
the sentinel (in its two spellings: exact on the all-lookups-failed
path, lower-cased by normalization on the city-lookup path), or the
normalization of a county/state/region field of a provider response. -/
theorem validate_county_first_cases (geo : PyStr → GeoOutcome) (raw : PyStr)
    (addr : ClientAddress) :
    (validate_county geo raw addr).1 = normalize_county raw ∨
    (validate_county geo raw addr).1 = pyOfString "Unknown County" ∨
    (validate_county geo raw addr).1 = normalize_county (pyOfString "Unknown County") ∨
    ∃ q a g, geo q = GeoOutcome.found a ∧ countyField a = some g ∧
      (validate_county geo raw addr).1 = normalize_county g := by
  rw [validate_county]
  split
  · exact Or.inl rfl
  · dsimp only
    cases hg1 : geo (joinStrip2 (addr.postal_code.getD []) (addr.country.getD [])) with
    | found a =>
      cases hcf : countyField a with
      | some g =>
        refine Or.inr (Or.inr (Or.inr ⟨_, a, g, hg1, hcf, ?_⟩))
        simp [hcf]
      | none =>
        cases hg2 : geo (joinStrip2 (addr.city.getD []) (addr.country.getD [])) with
        | found a2 =>
          cases hcf2 : countyField a2 with
          | some g2 =>
            refine Or.inr (Or.inr (Or.inr ⟨_, a2, g2, hg2, hcf2, ?_⟩))
            simp [hcf, hcf2]
          | none =>
            refine Or.inr (Or.inr (Or.inl ?_))
            simp [hcf, hcf2]
        | notFound =>
          by_cases hr : raw = []
          · exact Or.inr (Or.inl (by simp [hcf, hr]))
          · exact Or.inl (by simp [hcf, hr])
        | timedOut =>
          by_cases hr : raw = []
          · exact Or.inr (Or.inl (by simp [hcf, hr]))
          · exact Or.inl (by simp [hcf, hr])
        | failed =>
          by_cases hr : raw = []
          · exact Or.inr (Or.inl (by simp [hcf, hr]))
          · exact Or.inl (by simp [hcf, hr])
    | notFound =>
      cases hg2 : geo (joinStrip2 (addr.city.getD []) (addr.country.getD [])) with
      | found a2 =>
        cases hcf2 : countyField a2 with
        | some g2 =>
          refine Or.inr (Or.inr (Or.inr ⟨_, a2, g2, hg2, hcf2, ?_⟩))
          simp [hcf2]
        | none =>
          refine Or.inr (Or.inr (Or.inl ?_))
          simp [hcf2]
      | notFound =>
        by_cases hr : raw = []
        · exact Or.inr (Or.inl (by simp [hr]))
        · exact Or.inl (by simp [hr])
      | timedOut =>
        by_cases hr : raw = []
        · exact Or.inr (Or.inl (by simp [hr]))
        · exact Or.inl (by simp [hr])
      | failed =>
        by_cases hr : raw = []
        · exact Or.inr (Or.inl (by simp [hr]))
        · exact Or.inl (by simp [hr])
    | timedOut =>
      cases hg2 : geo (joinStrip2 (addr.city.getD []) (addr.country.getD [])) with
      | found a2 =>
        cases hcf2 : countyField a2 with
        | some g2 =>
          refine Or.inr (Or.inr (Or.inr ⟨_, a2, g2, hg2, hcf2, ?_⟩))
          simp [hcf2]
        | none =>
          refine Or.inr (Or.inr (Or.inl ?_))
          simp [hcf2]
      | notFound =>
        by_cases hr : raw = []
        · exact Or.inr (Or.inl (by simp [hr]))
        · exact Or.inl (by simp [hr])
      | timedOut =>
        by_cases hr : raw = []
        · exact Or.inr (Or.inl (by simp [hr]))
        · exact Or.inl (by simp [hr])
      | failed =>
        by_cases hr : raw = []
        · exact Or.inr (Or.inl (by simp [hr]))
        · exact Or.inl (by simp [hr])
    | failed =>
      cases hg2 : geo (joinStrip2 (addr.city.getD []) (addr.country.getD [])) with
      | found a2 =>
        cases hcf2 : countyField a2 with
        | some g2 =>
          refine Or.inr (Or.inr (Or.inr ⟨_, a2, g2, hg2, hcf2, ?_⟩))
          simp [hcf2]
        | none =>
          refine Or.inr (Or.inr (Or.inl ?_))
          simp [hcf2]
      | notFound =>
        by_cases hr : raw = []
        · exact Or.inr (Or.inl (by simp [hr]))
        · exact Or.inl (by simp [hr])
      | timedOut =>
        by_cases hr : raw = []
        · exact Or.inr (Or.inl (by simp [hr]))
        · exact Or.inl (by simp [hr])
      | failed =>
        by_cases hr : raw = []
        · exact Or.inr (Or.inl (by simp [hr]))
        · exact Or.inl (by simp [hr])

/-- C6 as amended: the county component of a returned pair is
"Bucuresti", the sentinel "Unknown County" (or its normalization-mangled
variant "Unknown county"), the normalized raw `state` input, or the
normalization of a county/state/region field returned by the provider —
membership in the valid-county enumeration is not guaranteed. -/
theorem C6_county_forms (geo : PyStr → GeoOutcome) (addr : ClientAddress)
    (county city : PyStr) (log : List PyStr)
    (h : resolve_county_and_city geo addr = Except.ok ((county, city), log)) :
    county = pyOfString "Bucuresti" ∨
    county = pyOfString "Unknown County" ∨
    county = normalize_county (pyOfString "Unknown County") ∨
    county = normalize_county (addr.state.getD []) ∨
    ∃ q a g, geo q = GeoOutcome.found a ∧ countyField a = some g ∧
      county = normalize_county g := by
  rw [resolve_county_and_city] at h
  by_cases hbuch :
      pyLowerStr (addr.city.getD (pyOfString "Unknown City")) ∈ bucharestNames
  · rw [if_pos hbuch] at h
    dsimp only at h
    split at h
    · cases h; exact Or.inl rfl
    · split at h
      · cases h; exact Or.inl rfl
      · cases h; exact Or.inl rfl
      · cases h; exact Or.inl rfl
      · cases h
  · rw [if_neg hbuch] at h
    dsimp only at h
    cases h
    rcases validate_county_first_cases geo (addr.state.getD []) addr with
      h1 | h1 | h1 | ⟨q, a, g, hg, hcf, h1⟩
    · exact Or.inr (Or.inr (Or.inr (Or.inl h1)))
    · exact Or.inr (Or.inl h1)
    · exact Or.inr (Or.inr (Or.inl h1))
    · exact Or.inr (Or.inr (Or.inr (Or.inr ⟨q, a, g, hg, hcf, h1⟩)))

/-- Witness for C6 as amended, at a concrete address with a valid state. -/
theorem C6_county_forms_witness :
    resolve_county_and_city (fun _ => GeoOutcome.notFound)
      ⟨none, none, none, none, none, some (pyOfString "Cluj")⟩ =
      Except.ok ((pyOfString "Cluj", pyOfString "Unknown City"), []) ∧
    (pyOfString "Cluj" = pyOfString "Bucuresti" ∨
     pyOfString "Cluj" = pyOfString "Unknown County" ∨
     pyOfString "Cluj" = normalize_county (pyOfString "Unknown County") ∨
     pyOfString "Cluj" = normalize_county (pyOfString "Cluj") ∨
     ∃ q a g, (fun _ => GeoOutcome.notFound : PyStr → GeoOutcome) q =
         GeoOutcome.found a ∧ countyField a = some g ∧
       pyOfString "Cluj" = normalize_county g) :=
  ⟨by rfl,
   C6_county_forms (fun _ => GeoOutcome.notFound)
     ⟨none, none, none, none, none, some (pyOfString "Cluj")⟩
     (pyOfString "Cluj") (pyOfString "Unknown City") [] (by rfl)⟩

/-! ## Idempotence of normalization (C9) -/

theorem mem_nfkdAscii_lt {c d : Nat} (h : d ∈ nfkdAscii c) : d < 128 := by
  unfold nfkdAscii at h
  repeat' split at h
  all_goals simp_all

theorem nfkdAscii_ascii {c : Nat} (h : c < 128) : nfkdAscii c = [c] := by
  unfold nfkdAscii
  rw [if_pos h]

theorem flatMap_nfkdAscii_of_ascii : ∀ {s : PyStr}, (∀ c ∈ s, c < 128) →
    s.flatMap nfkdAscii = s := by
  intro s
  induction s with
  | nil => intro _; rfl
  | cons a t ih =>
    intro h
    rw [List.flatMap_cons, nfkdAscii_ascii (h a (by simp)),
      ih (fun c hc => h c (by simp [hc]))]
    rfl

theorem pyLower_eq_self {c : Nat} (h1 : ¬(65 ≤ c ∧ c ≤ 90))
    (h2 : c ≠ 0x102) (h3 : c ≠ 0xC2) (h4 : c ≠ 0xCE) (h5 : c ≠ 0x218)
    (h6 : c ≠ 0x21A) (h7 : c ≠ 0x15E) (h8 : c ≠ 0x162) : pyLower c = c := by
  unfold pyLower
  rw [if_neg h1, if_neg h2, if_neg h3, if_neg h4, if_neg h5, if_neg h6,
    if_neg h7, if_neg h8]

theorem pyUpper_eq_self {c : Nat} (h1 : ¬(97 ≤ c ∧ c ≤ 122))
    (h2 : c ≠ 0x103) (h3 : c ≠ 0xE2) (h4 : c ≠ 0xEE) (h5 : c ≠ 0x219)
    (h6 : c ≠ 0x21B) (h7 : c ≠ 0x15F) (h8 : c ≠ 0x163) : pyUpper c = c := by
  unfold pyUpper
  rw [if_neg h1, if_neg h2, if_neg h3, if_neg h4, if_neg h5, if_neg h6,
    if_neg h7, if_neg h8]

theorem pyLower_idem (c : Nat) : pyLower (pyLower c) = pyLower c := by
  by_cases h1 : 65 ≤ c ∧ c ≤ 90
  · have e : pyLower c = c + 32 := by unfold pyLower; rw [if_pos h1]
    rw [e]
    exact pyLower_eq_self (by omega) (by omega) (by omega) (by omega)
      (by omega) (by omega) (by omega) (by omega)
  · by_cases h2 : c = 0x102
    · subst h2; decide
    by_cases h3 : c = 0xC2
    · subst h3; decide
    by_cases h4 : c = 0xCE
    · subst h4; decide
    by_cases h5 : c = 0x218
    · subst h5; decide
    by_cases h6 : c = 0x21A
    · subst h6; decide
    by_cases h7 : c = 0x15E
    · subst h7; decide
    by_cases h8 : c = 0x162
    · subst h8; decide
    rw [pyLower_eq_self h1 h2 h3 h4 h5 h6 h7 h8]
    exact pyLower_eq_self h1 h2 h3 h4 h5 h6 h7 h8

theorem pyUpper_idem (c : Nat) : pyUpper (pyUpper c) = pyUpper c := by
  by_cases h1 : 97 ≤ c ∧ c ≤ 122
  · have e : pyUpper c = c - 32 := by unfold pyUpper; rw [if_pos h1]
    rw [e]
    exact pyUpper_eq_self (by omega) (by omega) (by omega) (by omega)
      (by omega) (by omega) (by omega) (by omega)
  · by_cases h2 : c = 0x103
    · subst h2; decide
    by_cases h3 : c = 0xE2
    · subst h3; decide
    by_cases h4 : c = 0xEE
    · subst h4; decide
    by_cases h5 : c = 0x219
    · subst h5; decide
    by_cases h6 : c = 0x21B
    · subst h6; decide
    by_cases h7 : c = 0x15F
    · subst h7; decide
    by_cases h8 : c = 0x163
    · subst h8; decide
    rw [pyUpper_eq_self h1 h2 h3 h4 h5 h6 h7 h8]
    exact pyUpper_eq_self h1 h2 h3 h4 h5 h6 h7 h8

theorem pyLower_ascii {c : Nat} (h : c < 128) : pyLower c < 128 := by
  unfold pyLower
  split_ifs <;> omega

theorem pyUpper_ascii {c : Nat} (h : c < 128) : pyUpper c < 128 := by
  unfold pyUpper
  split_ifs <;> omega

theorem isPySpace_pyLower (c : Nat) : isPySpace (pyLower c) = isPySpace c := by
  unfold pyLower isPySpace
  split_ifs <;> simp only [decide_eq_decide] <;> omega

theorem isPySpace_pyUpper (c : Nat) : isPySpace (pyUpper c) = isPySpace c := by
  unfold pyUpper isPySpace
  split_ifs <;> simp only [decide_eq_decide] <;> omega

theorem head?_dropWhile_false {p : Nat → Bool} :
    ∀ {l : PyStr} {c : Nat}, (l.dropWhile p).head? = some c → p c = false := by
  intro l
  induction l with
  | nil => intro c h; simp [List.dropWhile] at h
  | cons a t ih =>
    intro c h
    rw [List.dropWhile_cons] at h
    by_cases hp : p a
    · rw [if_pos hp] at h
      exact ih h
    · rw [if_neg hp] at h
      cases h
      exact Bool.not_eq_true _ ▸ (by simpa using hp)

theorem dropWhile_eq_self_of {p : Nat → Bool} {l : PyStr}
    (h : ∀ c, l.head? = some c → p c = false) : l.dropWhile p = l := by
  cases l with
  | nil => rfl
  | cons a t =>
    rw [List.dropWhile_cons, if_neg]
    simp [h a rfl]

theorem getLast?_dropWhile_of_ne {p : Nat → Bool} :
    ∀ {l : PyStr}, l.dropWhile p ≠ [] → (l.dropWhile p).getLast? = l.getLast? := by
  intro l
  induction l with
  | nil => intro h; simp [List.dropWhile] at h
  | cons a t ih =>
    intro h
    rw [List.dropWhile_cons] at h ⊢
    by_cases hp : p a
    · rw [if_pos hp] at h ⊢
      rw [ih h]
      cases t with
      | nil => simp [List.dropWhile] at h
      | cons b t' => rw [List.getLast?_cons_cons]
    · rw [if_neg hp]

theorem pyStripWith_head?_false {p : Nat → Bool} {s : PyStr} {c : Nat}
    (h : (pyStripWith p s).head? = some c) : p c = false := by
  unfold pyStripWith at h
  rw [List.head?_reverse] at h
  have hne : ((s.dropWhile p).reverse.dropWhile p) ≠ [] := by
    intro he; rw [he] at h; cases h
  rw [getLast?_dropWhile_of_ne hne, List.getLast?_reverse] at h
  exact head?_dropWhile_false h

theorem pyStripWith_getLast?_false {p : Nat → Bool} {s : PyStr} {c : Nat}
    (h : (pyStripWith p s).getLast? = some c) : p c = false := by
  unfold pyStripWith at h
  rw [List.getLast?_reverse] at h
  exact head?_dropWhile_false h

theorem pyStripWith_eq_self {p : Nat → Bool} {s : PyStr}
    (hh : ∀ c, s.head? = some c → p c = false)
    (hl : ∀ c, s.getLast? = some c → p c = false) : pyStripWith p s = s := by
  unfold pyStripWith
  rw [dropWhile_eq_self_of hh]
  rw [dropWhile_eq_self_of (fun c hc => hl c (by rwa [List.head?_reverse] at hc)),
    List.reverse_reverse]

theorem mem_of_mem_pyStripWith {p : Nat → Bool} {s : PyStr} {c : Nat}
    (h : c ∈ pyStripWith p s) : c ∈ s := by
  unfold pyStripWith at h
  rw [List.mem_reverse] at h
  have h2 := (List.dropWhile_sublist (l := (s.dropWhile p).reverse) p).mem h
  rw [List.mem_reverse] at h2
  exact (List.dropWhile_sublist p).mem h2

theorem pyCapitalize_idem (s : PyStr) :
    pyCapitalize (pyCapitalize s) = pyCapitalize s := by
  cases s with
  | nil => rfl
  | cons a t =>
    show pyUpper (pyUpper a) :: (t.map pyLower).map pyLower =
      pyUpper a :: t.map pyLower
    rw [pyUpper_idem]
    congr 1
    induction t with
    | nil => rfl
    | cons b t' ih => simp [pyLower_idem, ih]

theorem pyCapitalize_ascii {s : PyStr} (h : ∀ c ∈ s, c < 128) :
    ∀ c ∈ pyCapitalize s, c < 128 := by
  cases s with
  | nil => intro c hc; simp [pyCapitalize] at hc
  | cons a t =>
    intro c hc
    rcases List.mem_cons.mp hc with rfl | hm
    · exact pyUpper_ascii (h a (by simp))
    · rcases List.mem_map.mp hm with ⟨d, hd, rfl⟩
      exact pyLower_ascii (h d (by simp [hd]))

theorem pyCapitalize_head?_space {s : PyStr} {c : Nat}
    (h : (pyCapitalize s).head? = some c) :
    ∃ d, s.head? = some d ∧ isPySpace c = isPySpace d := by
  cases s with
  | nil => cases h
  | cons a t =>
    refine ⟨a, rfl, ?_⟩
    have : pyUpper a = c := by simpa [pyCapitalize] using h
    rw [← this, isPySpace_pyUpper]

theorem pyCapitalize_getLast?_space {s : PyStr} {c : Nat}
    (h : (pyCapitalize s).getLast? = some c) :
    ∃ d, s.getLast? = some d ∧ isPySpace c = isPySpace d := by
  cases s with
  | nil => cases h
  | cons a t =>
    cases t with
    | nil =>
      refine ⟨a, rfl, ?_⟩
      have : pyUpper a = c := by simpa [pyCapitalize] using h
      rw [← this, isPySpace_pyUpper]
    | cons b t' =>
      rw [show pyCapitalize (a :: b :: t') = pyUpper a :: (b :: t').map pyLower
          from rfl, List.map_cons, List.getLast?_cons_cons, ← List.map_cons,
        List.getLast?_map] at h
      rcases Option.map_eq_some'.mp h with ⟨d, hd, he⟩
      refine ⟨d, ?_, ?_⟩
      · rw [List.getLast?_cons_cons]
        exact hd
      · rw [← he, isPySpace_pyLower]

theorem normalize_county_ascii (x : PyStr) :
    ∀ c ∈ normalize_county x, c < 128 := by
  unfold normalize_county pyStrip
  exact pyCapitalize_ascii (fun d hd => by
    rcases List.mem_flatMap.mp (mem_of_mem_pyStripWith hd) with ⟨e, _, he⟩
    exact mem_nfkdAscii_lt he)

theorem normalize_county_head?_space {x : PyStr} {c : Nat}
    (h : (normalize_county x).head? = some c) : isPySpace c = false := by
  unfold normalize_county pyStrip at h
  rcases pyCapitalize_head?_space h with ⟨d, hd, he⟩
  rw [he]
  exact pyStripWith_head?_false hd

theorem normalize_county_getLast?_space {x : PyStr} {c : Nat}
    (h : (normalize_county x).getLast? = some c) : isPySpace c = false := by
  unfold normalize_county pyStrip at h
  rcases pyCapitalize_getLast?_space h with ⟨d, hd, he⟩
  rw [he]
  exact pyStripWith_getLast?_false hd

theorem pyStrip_normalize_county (x : PyStr) :
    pyStrip (normalize_county x) = normalize_county x :=
  pyStripWith_eq_self (fun _ hc => normalize_county_head?_space hc)
    (fun _ hc => normalize_county_getLast?_space hc)

/-- C9: `normalize_county` is idempotent — diacritic stripping,
whitespace trimming and first-letter capitalization compose to an
idempotent function on all strings. -/
theorem C9_normalize_idempotent (x : PyStr) :
    normalize_county (normalize_county x) = normalize_county x := by
  conv_lhs => rw [normalize_county]
  rw [flatMap_nfkdAscii_of_ascii (normalize_county_ascii x),
    pyStrip_normalize_county x, normalize_county]
  exact pyCapitalize_idem _
